import Mathlib

/-!
Verification of the ClickSafe threat-assessment frontend logic.

The definitions below are shallow embeddings of the JavaScript source:
* `src/ClickSafe/src/pages/Home.jsx` (public feed filtering, deduplication,
  risk-score normalization, pagination),
* the PhishingDetector / QRScanner component (risk colors, CERT gating,
  input guards, result mapping).

JS strings are modelled as Lean `String` (the inputs of interest are ASCII,
where `Char.toLower` agrees with JS `toLowerCase` and code-unit lengths agree
with codepoint lengths); JS numbers are modelled as `Rat` (exact rationals;
all comparisons appearing in the code are float-exact on the relevant
ranges); floating comparison `minLength / maxLength > 0.8` is modelled by
the equivalent integer test `4 * maxLength < 5 * minLength`, which matches
the double-precision comparison for all list lengths below 10^15.
-/

namespace ClickSafe

/-- JS regex class `\w` (ASCII word character). -/
def isWordChar (c : Char) : Bool :=
  c.isAlpha || c.isDigit || c == '_'

/-- JS regex class `\s` restricted to ASCII whitespace. -/
def isSpaceChar (c : Char) : Bool :=
  c == ' ' || c == '\t' || c == '\n' || c == '\r' || c == '\x0b' || c == '\x0c'

/-- Collapse consecutive space characters into one (the effect of the JS
replacement of a whitespace run by a single space, after all whitespace
has been mapped to a plain space). -/
def squeezeSpaces : List Char → List Char
  | [] => []
  | [c] => [c]
  | a :: b :: rest =>
    if a == ' ' && b == ' ' then squeezeSpaces (b :: rest)
    else a :: squeezeSpaces (b :: rest)

/-- Remove leading and trailing spaces (JS `trim` after whitespace collapse,
when the only remaining whitespace character is a plain space). -/
def trimSpaces (l : List Char) : List Char :=
  ((l.dropWhile fun c => c == ' ').reverse.dropWhile fun c => c == ' ').reverse

/-- `normalizeContent` from `Home.jsx` (lines 65-70): lowercase, delete every
character that is neither a word character nor whitespace, collapse each
whitespace run to a single space, trim. -/
def normalizeContent (s : String) : String :=
  ⟨trimSpaces (squeezeSpaces
    ((((s.data.map Char.toLower).filter fun c => isWordChar c || isSpaceChar c).map
      fun c => if isSpaceChar c then ' ' else c)))⟩

/-- `leadMatch sub l` holds when `l` starts with `sub`. -/
def leadMatch : List Char → List Char → Bool
  | [], _ => true
  | _ :: _, [] => false
  | a :: as, b :: bs => a == b && leadMatch as bs

/-- `hasSub sub hay` holds when `sub` occurs in `hay` as a contiguous block. -/
def hasSub (sub : List Char) : List Char → Bool
  | [] => sub.isEmpty
  | c :: t => leadMatch sub (c :: t) || hasSub sub t

/-- JS `hay.includes(sub)`: contiguous substring containment. -/
def strIncludes (hay sub : String) : Bool :=
  hasSub sub.data hay.data

/-- The similarity callback used by `findIndex` in the `Home.jsx`
deduplication filter (lines 75-95): exact equality of the normalized
strings, otherwise, only when the shorter normalized length exceeds 20,
a length-ratio test (shorter / longer above 0.8) followed by two-sided
substring containment. -/
def isSimilar (current other : String) : Bool :=
  let cn := normalizeContent current
  let bn := normalizeContent other
  if cn == bn then true
  else
    let minL := min cn.length bn.length
    let maxL := max cn.length bn.length
    if 20 < minL then
      if 4 * maxL < 5 * minL then
        strIncludes cn bn || strIncludes bn cn
      else false
    else false

/-- The similarity test exactly as the claim C1 words it (no minimum-length
guard): normalized equality, or length-ratio above 0.8 together with
substring containment. Written from the words of the claim, to be compared
with `isSimilar`, which is written from the source. -/
def claimSimilarC1 (current other : String) : Bool :=
  let cn := normalizeContent current
  let bn := normalizeContent other
  cn == bn ||
    (decide (4 * max cn.length bn.length < 5 * min cn.length bn.length) &&
      (strIncludes cn bn || strIncludes bn cn))

/-- The amended similarity test: as claim C1, with the additional condition
from the source that the shorter normalized length exceeds 20. -/
def amendedSimilarC1 (current other : String) : Bool :=
  let cn := normalizeContent current
  let bn := normalizeContent other
  cn == bn ||
    (decide (20 < min cn.length bn.length) &&
      decide (4 * max cn.length bn.length < 5 * min cn.length bn.length) &&
      (strIncludes cn bn || strIncludes bn cn))

/-- One entry of the public recent-scam feed as consumed by `Home.jsx`. -/
structure Scam where
  id : Nat
  anonymized_content : String
  classification : String
  risk_score : Rat
  scan_count : Nat
deriving DecidableEq, Repr

/-- Similarity of two feed entries by their anonymized content. -/
def scamSimilar (current other : Scam) : Bool :=
  isSimilar current.anonymized_content other.anonymized_content

/-- `Home.jsx` lines 63-99: the deduplication filter keeps an element exactly
when `findIndex` over the whole array, with the similarity callback, returns
its own position. Modelled on the enumerated list, as the JS `filter`
callback receives the element index and the full array. -/
def dedupEnum (l : List Scam) : List (Nat × Scam) :=
  l.enum.filter fun p => l.findIdx (fun t => scamSimilar p.2 t) == p.1

/-- The deduplicated scam list (`deduplicatedScams` in `Home.jsx`). -/
def dedupFilter (l : List Scam) : List Scam :=
  (dedupEnum l).map Prod.snd

/-- `Home.jsx` line 55 (also 319, 321, 324): a stored risk score above 1 is
already a percentage, otherwise it is a fraction and is scaled by 100. -/
def riskPercent (r : Rat) : Rat :=
  if 1 < r then r else r * 100

/-- `Home.jsx` lines 50-52: classification must be dangerous, high or
critical. -/
def isDangerousClassification (s : Scam) : Bool :=
  s.classification == "dangerous" || s.classification == "high" ||
    s.classification == "critical"

/-- `Home.jsx` line 56: the normalized risk score must be at least 70. -/
def isHighRiskScore (s : Scam) : Bool :=
  decide ((70 : Rat) ≤ riskPercent s.risk_score)

/-- `Home.jsx` lines 48-60: keep the entries meeting both criteria. -/
def dangerousFilter (l : List Scam) : List Scam :=
  l.filter fun s => isDangerousClassification s && isHighRiskScore s

/-- The list stored in `allScams`: dangerous filter, then deduplication. -/
def feedScams (l : List Scam) : List Scam :=
  dedupFilter (dangerousFilter l)

/-- `updateDisplayedScams` (`Home.jsx` lines 129-133): the slice of the feed
for a given page. -/
def displayedScams (l : List Scam) (page per : Nat) : List Scam :=
  ((feedScams l).drop (page * per)).take per

/-- `Home.jsx` line 321: the rendered risk percentage, `Math.round` of the
normalized score (JS `Math.round` rounds half toward positive infinity,
as Mathlib `round` does). -/
def renderedRisk (r : Rat) : Int :=
  round (riskPercent r)

/-- `getRiskColor` in the PhishingDetector component (part_002 lines
274-278). -/
def getRiskColor (riskScore : Rat) : String :=
  if riskScore < 30 then "text-green-600"
  else if riskScore < 70 then "text-yellow-600"
  else "text-red-600"

/-- `getRiskBgColor` in the PhishingDetector component (part_002 lines
280-284). -/
def getRiskBgColor (riskScore : Rat) : String :=
  if riskScore < 30 then "bg-green-50 border-green-200"
  else if riskScore < 70 then "bg-yellow-50 border-yellow-200"
  else "bg-red-50 border-red-200"

/-- JS `v || d` for an optional string field: the default replaces both a
missing field and the empty string (both are falsy). -/
def jsOrStr (v : Option String) (d : String) : String :=
  match v with
  | none => d
  | some s => if s = "" then d else s

/-- JS `v || d` for an optional numeric field: the default replaces both a
missing field and `0`. -/
def jsOrNum (v : Option Rat) (d : Rat) : Rat :=
  match v with
  | none => d
  | some x => if x = 0 then d else x

/-- `isHighRisk` in the PhishingDetector component (part_002 lines 296-306):
the CERT-report button is shown when `result.risk_score || 0` is at least
50. -/
def isHighRiskPD (risk_score : Option Rat) : Bool :=
  decide ((50 : Rat) ≤ jsOrNum risk_score 0)

/-- `isHighRisk` in the QRScanner component (part_002 lines 1272-1276): the
CERT gate tests the categorical risk level, not a numeric score. -/
def isHighRiskQR (final_risk_level : Option String) : Bool :=
  let lv := jsOrStr final_risk_level ""
  lv == "medium" || lv == "high" || lv == "critical"

/-- JS `String.trim`, restricted to ASCII whitespace. -/
def jsTrim (s : String) : String :=
  ⟨((s.data.dropWhile isSpaceChar).reverse.dropWhile isSpaceChar).reverse⟩

/-- Outcome of the synchronous input guard of `analyzeMessage`. -/
inductive MessageAction where
  | inputError (msg : String)
  | analyze (content : String)
deriving DecidableEq, Repr

/-- The synchronous guard of `analyzeMessage` (part_002 lines 103-108): a
message whose trim is empty produces an input error and returns before any
analysis request; otherwise the trimmed content is submitted. -/
def analyzeMessageStep (message : String) : MessageAction :=
  if jsTrim message = "" then .inputError "Please enter a message to analyze"
  else .analyze (jsTrim message)

/-- The `maxLength` attribute of the message textarea (part_002 line 515). -/
def messageMaxLength : Nat := 5000

/-- Outcome of the `handleFileUpload` guard. -/
inductive UploadAction where
  | uploadError (msg : String)
  | analyzeFile
deriving DecidableEq, Repr

/-- `handleFileUpload` (part_002 lines 1123-1138): a file whose MIME type is
not an image type, or whose size exceeds 10 MB, produces an input error and
is never submitted for analysis. -/
def handleFileUpload (fileType : String) (fileSize : Nat) : UploadAction :=
  if !(leadMatch "image/".data fileType.data) then
    .uploadError "Please select an image file"
  else if 10 * 1024 * 1024 < fileSize then
    .uploadError "File too large. Maximum size is 10MB"
  else .analyzeFile

/-- A raw backend scan response as consumed by the frontend result mapping
(optional fields model absent JSON keys). -/
structure ScanResponse where
  classification : Option String
  risk_score : Option Rat
  language : Option String
  explanation : Option String
  suspicious_terms : Option (List String)
  is_safe : Option Bool
deriving DecidableEq, Repr

/-- The result object built by the frontend. -/
structure DisplayResult where
  prediction : String
  confidence : Rat
  risk_score : Rat
  language : String
  explanation : String
  suspicious_terms : List String
  classification : String
  is_safe : Bool
deriving DecidableEq, Repr

/-- The result mapping of `analyzeMessage` (part_002 lines 130-139): every
missing field is defaulted, a missing classification becomes the string
unknown, and the safe flag requires the classification to equal safe or an
explicit true safe flag. -/
def mapScanResult (r : ScanResponse) : DisplayResult where
  prediction := jsOrStr r.classification "unknown"
  confidence := jsOrNum r.risk_score 0
  risk_score := jsOrNum r.risk_score 0
  language := jsOrStr r.language "english"
  explanation := jsOrStr r.explanation "Analysis completed"
  suspicious_terms := r.suspicious_terms.getD []
  classification := jsOrStr r.classification "unknown"
  is_safe := r.classification == some "safe" || r.is_safe == some true

/-- Label returned by the ML classifier signal. -/
inductive MLLabel where
  | safe
  | suspicious
  | dangerous
deriving DecidableEq, Repr

/-- Reputation verdict returned by the threat-intel gateway. -/
inductive TIRep where
  | clean
  | flagged
  | unknownRep
deriving DecidableEq, Repr

/-- Threat-intel signal result: reputation verdict and raw hit count. -/
structure TIResult where
  reputation : TIRep
  hits : Nat
deriving DecidableEq, Repr

/-- Heuristic signal result: additive sub-score (0-100) and whether the
matched terms include a critical-severity category. -/
structure HeuristicResult where
  subScore : Rat
  criticalTerms : Bool
deriving DecidableEq, Repr

/-- ML signal result: class label and confidence in the unit interval. -/
structure MLResult where
  label : MLLabel
  confidence : Rat
deriving DecidableEq, Repr

/-- The final output of the fusion engine. -/
structure AssessmentResult where
  classification : String
  riskScore : Int
  explanation : String
deriving DecidableEq, Repr

/-- Modelled from the spec: the 0-100 sub-score of the ML signal is its
confidence scaled to percent (spec section 8 example: confidence 0.9 maps
to a sub-score of about 90). -/
def mlSubScore (m : MLResult) : Rat :=
  m.confidence * 100

/-- Modelled from the spec: the 0-100 sub-score of the threat-intel signal.
The spec fixes no numeric mapping for the reputation verdict; a flagged
verdict is taken as 100, clean as 0 and unknown as 50. -/
def tiSubScore (t : TIResult) : Rat :=
  match t.reputation with
  | .flagged => 100
  | .clean => 0
  | .unknownRep => 50

/-- Modelled from the spec: the hit count above which a flagged reputation
counts as a high hit count. The spec fixes no number; the constant is
exposed as configuration. -/
def highHitCount : Nat := 10

/-- Modelled from the spec: a threat-intel result that is explicitly flagged
with a high hit count. -/
def tiFlaggedHigh (t : Option TIResult) : Bool :=
  match t with
  | some r => r.reputation == TIRep.flagged && decide (highHitCount ≤ r.hits)
  | none => false

/-- Modelled from the spec: classification thresholds of the fusion engine
(spec section 4.5): below 30 safe, below 70 suspicious, otherwise
dangerous. -/
def classifyScore (n : Int) : String :=
  if n < 30 then "safe"
  else if n < 70 then "suspicious"
  else "dangerous"

/-- Clamp an integer score to the interval from 0 to 100. -/
def clampScore (n : Int) : Int :=
  max 0 (min 100 n)

/-- Modelled from the spec: the weighted fused score. Base weights are 0.35
for the heuristic, 0.45 for the ML classifier and 0.20 for threat intel; an
unavailable signal has its weight redistributed proportionally, which is
division of the weighted sum of the available signals by the sum of their
base weights. -/
def fusedScore (h : Option HeuristicResult) (m : Option MLResult)
    (t : Option TIResult) : Rat :=
  let pairs : List (Rat × Rat) :=
    (match h with
      | some r => [((35 : Rat) / 100, r.subScore)]
      | none => []) ++
    (match m with
      | some r => [((45 : Rat) / 100, mlSubScore r)]
      | none => []) ++
    (match t with
      | some r => [((20 : Rat) / 100, tiSubScore r)]
      | none => [])
  let totalW := (pairs.map Prod.fst).sum
  if totalW = 0 then 0 else (pairs.map fun p => p.1 * p.2).sum / totalW

/-- Modelled from the spec: the fusion engine `assess`, whose backend
implementation is not under src (only its frontend callers are). If all
three signals are unavailable it returns the classification unknown with
score 0 and an explanation stating that no signal was available; otherwise
the weighted score is rounded, clamped and classified by the thresholds,
then the hard threat-intel override forces dangerous, and the
critical-terms override lifts safe to suspicious. -/
def assess (h : Option HeuristicResult) (m : Option MLResult)
    (t : Option TIResult) : AssessmentResult :=
  if h.isNone && m.isNone && t.isNone then
    { classification := "unknown"
      riskScore := 0
      explanation := "No detection signal was available" }
  else
    let score := clampScore (round (fusedScore h m t))
    let base := classifyScore score
    let cls :=
      if tiFlaggedHigh t then "dangerous"
      else if base = "safe" &&
          (match h with | some r => r.criticalTerms | none => false) then
        "suspicious"
      else base
    { classification := cls
      riskScore := score
      explanation := "Classified as " ++ cls }

/-- The first report content of the deduplication example in spec section 8. -/
def urgentContentA : String := "URGENT click here to claim prize now!!!"

/-- The near-duplicate report content of the deduplication example. -/
def urgentContentB : String := "urgent click here to claim your prize now"

/-- A feed entry carrying the first example content. -/
def urgentScamA : Scam :=
  { id := 1, anonymized_content := urgentContentA, classification := "dangerous"
    risk_score := 95, scan_count := 1 }

/-- A feed entry carrying the near-duplicate example content. -/
def urgentScamB : Scam :=
  { id := 2, anonymized_content := urgentContentB, classification := "dangerous"
    risk_score := 90, scan_count := 1 }

/-- A feed entry whose content is a true near-duplicate of `urgentScamB`
(same words, different case and punctuation plus a trailing word). -/
def urgentScamC : Scam :=
  { id := 3, anonymized_content := "URGENT click here to claim your prize now!!!"
    classification := "dangerous", risk_score := 95, scan_count := 1 }

/- Helper lemmas shared by the claim theorems. -/

theorem isSimilar_eq_amended (a b : String) :
    isSimilar a b = amendedSimilarC1 a b := by
  unfold isSimilar amendedSimilarC1
  by_cases h1 : (normalizeContent a == normalizeContent b) = true
  · simp [h1]
  · simp only [Bool.not_eq_true] at h1
    simp only [h1, Bool.false_eq_true, if_false, Bool.false_or]
    split_ifs <;> simp_all

theorem isSimilar_symm (a b : String) : isSimilar a b = isSimilar b a := by
  rw [isSimilar_eq_amended, isSimilar_eq_amended]
  unfold amendedSimilarC1
  dsimp only
  rw [min_comm, max_comm, Bool.beq_comm,
    Bool.or_comm (strIncludes (normalizeContent b) (normalizeContent a))]

theorem isSimilar_refl (a : String) : isSimilar a a = true := by
  unfold isSimilar
  simp

theorem scamSimilar_refl (s : Scam) : scamSimilar s s = true :=
  isSimilar_refl s.anonymized_content

theorem scamSimilar_symm (s t : Scam) : scamSimilar s t = scamSimilar t s :=
  isSimilar_symm s.anonymized_content t.anonymized_content

theorem dedupFilter_sublist (l : List Scam) : (dedupFilter l).Sublist l := by
  have h1 : (dedupEnum l).Sublist l.enum := List.filter_sublist l.enum
  have h2 : ((dedupEnum l).map Prod.snd).Sublist (l.enum.map Prod.snd) :=
    h1.map Prod.snd
  have h3 : l.enum.map Prod.snd = l := List.enumFrom_map_snd 0 l
  rw [h3] at h2
  exact h2

/- Claim theorems. -/

/-- C1 counterexample: the pair of contents abcdefghij and abcdefghi
satisfies the similarity condition exactly as the claim words it (length
ratio 0.9, one contains the other), yet the code does not treat the pair
as duplicates, because the shorter normalized length is not above 20. -/
theorem claim_similarity_cex :
    claimSimilarC1 "abcdefghij" "abcdefghi" = true ∧
      isSimilar "abcdefghij" "abcdefghi" = false := by
  constructor <;> decide

/-- C1 (amended): two reports are treated as duplicates of one cluster if
and only if the normalized contents are exactly equal, or the shorter
normalized length exceeds 20 and the ratio of the shorter to the longer
normalized length exceeds 0.8 and one normalized string contains the other
as a contiguous substring. -/
theorem near_duplicate_similarity (a b : String) :
    isSimilar a b = true ↔
      (normalizeContent a = normalizeContent b ∨
        (20 < min (normalizeContent a).length (normalizeContent b).length ∧
          4 * max (normalizeContent a).length (normalizeContent b).length <
            5 * min (normalizeContent a).length (normalizeContent b).length ∧
          (strIncludes (normalizeContent a) (normalizeContent b) = true ∨
            strIncludes (normalizeContent b) (normalizeContent a) = true))) := by
  rw [isSimilar_eq_amended]
  unfold amendedSimilarC1
  simp only [Bool.or_eq_true, Bool.and_eq_true, decide_eq_true_eq, beq_iff_eq]
  tauto

/-- C3 counterexample: for the two example contents of the spec, the second
report is not removed as a duplicate of the first: the deduplication filter
keeps both entries, so the feed does not collapse them into one cluster. -/
theorem dedup_example_cex :
    dedupFilter [urgentScamA, urgentScamB] ≠ [urgentScamA] := by
  decide

/-- C3 (amended): for the example contents, the similarity test fails
(neither normalized string contains the other as a contiguous substring,
because of the inserted word your), so the deduplication filter keeps both
entries unchanged, each with its own occurrence count of 1. -/
theorem dedup_example_keeps_both :
    dedupFilter [urgentScamA, urgentScamB] = [urgentScamA, urgentScamB] ∧
      strIncludes (normalizeContent urgentContentB)
        (normalizeContent urgentContentA) = false ∧
      strIncludes (normalizeContent urgentContentA)
        (normalizeContent urgentContentB) = false ∧
      (dedupFilter [urgentScamA, urgentScamB]).map Scam.scan_count = [1, 1] := by
  refine ⟨by decide, by decide, by decide, by decide⟩

/-- C2: for every integer risk score, a score strictly below 30 classifies
as safe, a score from 30 through 69 as suspicious, and a score of 70 or
more as dangerous, both in the fusion thresholds and in the risk-color
mapping of the result display; in particular 30 is suspicious, not safe,
and 70 is dangerous. -/
theorem classification_thresholds :
    (∀ n : Int,
      (classifyScore n = "safe" ↔ n < 30) ∧
      (classifyScore n = "suspicious" ↔ 30 ≤ n ∧ n ≤ 69) ∧
      (classifyScore n = "dangerous" ↔ 70 ≤ n)) ∧
    (∀ r : Rat,
      (getRiskColor r = "text-green-600" ↔ r < 30) ∧
      (getRiskColor r = "text-yellow-600" ↔ 30 ≤ r ∧ r < 70) ∧
      (getRiskColor r = "text-red-600" ↔ 70 ≤ r) ∧
      (getRiskBgColor r = "bg-red-50 border-red-200" ↔ 70 ≤ r)) ∧
    classifyScore 30 = "suspicious" ∧ classifyScore 70 = "dangerous" ∧
    getRiskColor 30 = "text-yellow-600" ∧ getRiskColor 70 = "text-red-600" ∧
    getRiskBgColor 30 = "bg-yellow-50 border-yellow-200" ∧
    getRiskBgColor 70 = "bg-red-50 border-red-200" := by
  refine ⟨?_, ?_, by decide, by decide, by norm_num [getRiskColor],
    by norm_num [getRiskColor], by norm_num [getRiskBgColor],
    by norm_num [getRiskBgColor]⟩
  · intro n
    unfold classifyScore
    split_ifs with h1 h2
    · exact ⟨⟨fun _ => h1, fun _ => rfl⟩,
        ⟨fun h => absurd h (by decide), fun h => absurd h1 (by omega)⟩,
        ⟨fun h => absurd h (by decide), fun h => absurd h1 (by omega)⟩⟩
    · exact ⟨⟨fun h => absurd h (by decide), fun h => absurd h h1⟩,
        ⟨fun _ => ⟨by omega, by omega⟩, fun _ => rfl⟩,
        ⟨fun h => absurd h (by decide), fun h => absurd h2 (by omega)⟩⟩
    · exact ⟨⟨fun h => absurd h (by decide), fun h => absurd h h1⟩,
        ⟨fun h => absurd h (by decide), fun h => absurd h.2 (by omega)⟩,
        ⟨fun _ => by omega, fun _ => rfl⟩⟩
  · intro r
    unfold getRiskColor getRiskBgColor
    split_ifs with h1 h2
    · exact ⟨⟨fun _ => h1, fun _ => rfl⟩,
        ⟨fun h => absurd h (by decide), fun h => absurd h1 (not_lt.mpr h.1)⟩,
        ⟨fun h => absurd h (by decide), fun h => absurd h1 (not_lt.mpr (by linarith))⟩,
        ⟨fun h => absurd h (by decide), fun h => absurd h1 (not_lt.mpr (by linarith))⟩⟩
    · exact ⟨⟨fun h => absurd h (by decide), fun h => absurd h h1⟩,
        ⟨fun _ => ⟨not_lt.mp h1, h2⟩, fun _ => rfl⟩,
        ⟨fun h => absurd h (by decide), fun h => absurd h2 (not_lt.mpr h)⟩,
        ⟨fun h => absurd h (by decide), fun h => absurd h2 (not_lt.mpr h)⟩⟩
    · exact ⟨⟨fun h => absurd h (by decide), fun h => absurd h h1⟩,
        ⟨fun h => absurd h (by decide), fun h => absurd h.2 h2⟩,
        ⟨fun _ => not_lt.mp h2, fun _ => rfl⟩,
        ⟨fun _ => not_lt.mp h2, fun _ => rfl⟩⟩

/-- C9: a risk score in the interval from 50 up to but excluding 70 is
treated as reportable by the message-scan CERT entry point, whose threshold
is 50, while the classification display colors the same score as the
mid-level yellow band, below the dangerous threshold of 70; the QR-scanner
CERT gate instead tests for a categorical risk level among medium, high and
critical. -/
theorem inconsistent_cut_points :
    (∀ r : Rat, 50 ≤ r → r < 70 →
      isHighRiskPD (some r) = true ∧
      getRiskColor r = "text-yellow-600" ∧
      getRiskColor r ≠ "text-red-600") ∧
    (∀ lv : String, isHighRiskQR (some lv) = true ↔
      (lv = "medium" ∨ lv = "high" ∨ lv = "critical")) := by
  constructor
  · intro r h50 h70
    have hne : r ≠ 0 := by intro h; rw [h] at h50; norm_num at h50
    have h30 : ¬ r < 30 := by intro h; linarith
    refine ⟨?_, ?_, ?_⟩
    · unfold isHighRiskPD jsOrNum
      simp [hne, h50]
    · unfold getRiskColor
      rw [if_neg h30, if_pos h70]
    · unfold getRiskColor
      rw [if_neg h30, if_pos h70]
      decide
  · intro lv
    unfold isHighRiskQR jsOrStr
    by_cases he : lv = ""
    · subst he
      simp
    · simp only [he, if_false]
      simp [he, or_assoc]

/-- C10: the risk percentage used by both the dangerous filter and the
rendered feed entry equals the stored risk score itself when the stored
value exceeds 1, and the stored value scaled by 100 otherwise; hence a
stored score of exactly 1 is rendered as 100 percent, never as 1. -/
theorem dual_scale_risk_normalization :
    (∀ r : Rat, (1 < r → riskPercent r = r) ∧ (r ≤ 1 → riskPercent r = r * 100)) ∧
    (∀ s : Scam, isHighRiskScore s = decide ((70 : Rat) ≤ riskPercent s.risk_score)) ∧
    riskPercent 1 = 100 ∧ renderedRisk 1 = 100 ∧ renderedRisk 1 ≠ 1 := by
  refine ⟨?_, fun s => rfl, by norm_num [riskPercent],
    by norm_num [renderedRisk, riskPercent], by norm_num [renderedRisk, riskPercent]⟩
  intro r
  constructor
  · intro h
    unfold riskPercent
    rw [if_pos h]
  · intro h
    unfold riskPercent
    rw [if_neg (by linarith)]

/-- C10 witness: the general statement applied at stored scores 2 and one
half, which are interpreted as 2 percent and 50 percent respectively. -/
theorem dual_scale_risk_normalization_witness :
    riskPercent 2 = 2 ∧ riskPercent (1 / 2) = 50 := by
  refine ⟨?_, ?_⟩
  · have h := (dual_scale_risk_normalization.1 2).1 (by norm_num)
    exact h
  · have h := (dual_scale_risk_normalization.1 (1 / 2)).2 (by norm_num)
    rw [h]; norm_num

/-- C9 witness: the general statement applied at score 60 and at the level
medium. -/
theorem inconsistent_cut_points_witness :
    isHighRiskPD (some 60) = true ∧ getRiskColor 60 = "text-yellow-600" ∧
      isHighRiskQR (some "medium") = true := by
  have h := inconsistent_cut_points.1 60 (by norm_num) (by norm_num)
  exact ⟨h.1, h.2.1, (inconsistent_cut_points.2 "medium").mpr (Or.inl rfl)⟩

/-- C8: an empty or whitespace-only message produces an input error and
triggers no analysis call; the message input is capped at 5000 characters;
a QR upload that is not an image file, or exceeds 10 MB, produces an input
error and is never submitted for analysis. -/
theorem malformed_input_rejection :
    (∀ msg : String, msg.data.all isSpaceChar = true →
      analyzeMessageStep msg = .inputError "Please enter a message to analyze" ∧
      ∀ c, analyzeMessageStep msg ≠ .analyze c) ∧
    messageMaxLength = 5000 ∧
    (∀ t : String, ∀ n : Nat, leadMatch "image/".data t.data = false →
      handleFileUpload t n = .uploadError "Please select an image file" ∧
      handleFileUpload t n ≠ .analyzeFile) ∧
    (∀ t : String, ∀ n : Nat, 10 * 1024 * 1024 < n →
      handleFileUpload t n ≠ .analyzeFile) := by
  refine ⟨?_, rfl, ?_, ?_⟩
  · intro msg hsp
    have htrim : jsTrim msg = "" := by
      unfold jsTrim
      have h1 : msg.data.dropWhile isSpaceChar = [] :=
        List.dropWhile_eq_nil_iff.mpr fun x hx => by
          simpa using List.all_eq_true.mp hsp x hx
      rw [h1]
      rfl
    unfold analyzeMessageStep
    rw [if_pos htrim]
    exact ⟨rfl, fun c h => by simp at h⟩
  · intro t n ht
    constructor
    · unfold handleFileUpload
      rw [ht]
      rfl
    · unfold handleFileUpload
      rw [ht]
      intro h
      simp at h
  · intro t n hn
    cases hi : leadMatch "image/".data t.data with
    | false => simp [handleFileUpload, hi]
    | true => simp [handleFileUpload, hi, hn]

/-- C8 witness: the guards applied to a whitespace-only message, a
non-image upload, and an oversized image upload. -/
theorem malformed_input_rejection_witness :
    analyzeMessageStep "   " = .inputError "Please enter a message to analyze" ∧
    handleFileUpload "text/plain" 5 = .uploadError "Please select an image file" ∧
    handleFileUpload "image/png" (10 * 1024 * 1024 + 1) ≠ .analyzeFile := by
  refine ⟨(malformed_input_rejection.1 "   " (by decide)).1,
    (malformed_input_rejection.2.2.1 "text/plain" 5 (by decide)).1,
    malformed_input_rejection.2.2.2 "image/png" (10 * 1024 * 1024 + 1)
      (by omega)⟩

/-- C4: the deduplication pass keeps an entry exactly when no entry at a
strictly earlier position is similar to it, and the kept entries form a
sublist of the input, preserving insertion order; hence for mutually
similar entries the first in insertion order is the one kept as cluster
representative. -/
theorem dedup_first_match_wins (l : List Scam) :
    (dedupFilter l).Sublist l ∧
    ∀ i, ∀ hi : i < l.length,
      ((i, l.get ⟨i, hi⟩) ∈ dedupEnum l ↔
        ∀ j, ∀ hj : j < i,
          scamSimilar (l.get ⟨j, hj.trans hi⟩) (l.get ⟨i, hi⟩) = false) := by
  refine ⟨dedupFilter_sublist l, ?_⟩
  intro i hi
  unfold dedupEnum
  rw [List.mem_filter]
  have hmem : (i, l.get ⟨i, hi⟩) ∈ l.enum := by
    rw [List.mk_mem_enum_iff_getElem?]
    simp [List.getElem?_eq_getElem hi]
  constructor
  · rintro ⟨-, hp⟩
    intro j hj
    have hfi : l.findIdx (fun t => scamSimilar (l.get ⟨i, hi⟩) t) = i :=
      beq_iff_eq.mp hp
    have hchar := (List.findIdx_eq hi).mp hfi
    have hji := hchar.2 j hj
    rw [scamSimilar_symm]
    simpa using hji
  · intro hall
    refine ⟨hmem, ?_⟩
    have hfi : l.findIdx (fun t => scamSimilar (l.get ⟨i, hi⟩) t) = i := by
      rw [List.findIdx_eq hi]
      refine ⟨by simpa using scamSimilar_refl (l.get ⟨i, hi⟩), fun j hj => ?_⟩
      have := hall j hj
      rw [scamSimilar_symm] at this
      simpa using this
    simpa using hfi

/-- C4 witness: in the list holding `urgentScamB` then its true
near-duplicate `urgentScamC`, the second entry is not kept (it has an
earlier similar entry), and the filter keeps exactly the first entry. -/
theorem dedup_first_match_wins_witness :
    (1, urgentScamC) ∉ dedupEnum [urgentScamB, urgentScamC] ∧
      dedupFilter [urgentScamB, urgentScamC] = [urgentScamB] := by
  have h := (dedup_first_match_wins [urgentScamB, urgentScamC]).2 1 (by norm_num)
  refine ⟨?_, by decide⟩
  intro hmem
  have hfalse : scamSimilar urgentScamB urgentScamC = false := h.mp hmem 0 (by norm_num)
  exact absurd hfalse (by decide)

/-- C5: every entry of the displayed public feed has a dangerous (or high
or critical) classification and a normalized risk score of at least 70;
an entry failing either condition never appears. -/
theorem feed_high_risk_invariant (l : List Scam) (page per : Nat) (s : Scam)
    (hs : s ∈ displayedScams l page per) :
    isDangerousClassification s = true ∧ (70 : Rat) ≤ riskPercent s.risk_score := by
  have h1 : s ∈ feedScams l := by
    unfold displayedScams at hs
    exact List.mem_of_mem_drop (List.mem_of_mem_take hs)
  unfold feedScams at h1
  have h2 : s ∈ dangerousFilter l :=
    (dedupFilter_sublist (dangerousFilter l)).subset h1
  have h3 := (List.mem_filter.mp h2).2
  rw [Bool.and_eq_true] at h3
  exact ⟨h3.1, of_decide_eq_true h3.2⟩

/-- C5 witness: a dangerous entry with score 95 appears on the first page
and indeed satisfies both feed conditions. -/
theorem feed_high_risk_invariant_witness :
    urgentScamA ∈ displayedScams [urgentScamA] 0 3 ∧
      isDangerousClassification urgentScamA = true ∧
      (70 : Rat) ≤ riskPercent urgentScamA.risk_score := by
  have hm : urgentScamA ∈ displayedScams [urgentScamA] 0 3 := by decide
  exact ⟨hm, feed_high_risk_invariant [urgentScamA] 0 3 urgentScamA hm⟩

/-- C6: when all three signals are unavailable, the assessment is the
classification unknown with risk score 0 and an explanation stating that
no signal was available, not an exception and never the classification
safe; correspondingly the frontend presents a response with a missing
classification as unknown and does not treat it as safe. -/
theorem total_signal_failure :
    assess none none none =
      { classification := "unknown", riskScore := 0
        explanation := "No detection signal was available" } ∧
    (assess none none none).classification ≠ "safe" ∧
    (∀ r : ScanResponse, r.classification = none →
      (mapScanResult r).classification = "unknown" ∧
      (mapScanResult r).prediction = "unknown" ∧
      (r.is_safe ≠ some true → (mapScanResult r).is_safe = false)) := by
  refine ⟨rfl, by decide, ?_⟩
  intro r h
  refine ⟨by simp [mapScanResult, jsOrStr, h], by simp [mapScanResult, jsOrStr, h], ?_⟩
  intro hsafe
  simp [mapScanResult, h, beq_eq_false_iff_ne.mpr hsafe]

/-- C6 witness: the all-defaults response, whose classification is missing,
is presented as unknown and not safe. -/
theorem total_signal_failure_witness :
    (mapScanResult ⟨none, none, none, none, none, none⟩).classification = "unknown" ∧
      (mapScanResult ⟨none, none, none, none, none, none⟩).is_safe = false := by
  have h := total_signal_failure.2.2 ⟨none, none, none, none, none, none⟩ rfl
  exact ⟨h.1, h.2.2 (by decide)⟩

/-- C7: whenever the threat-intel reputation is explicitly flagged with a
high hit count, the final classification is dangerous, for every value of
the heuristic and ML signals and hence regardless of the computed weighted
score. -/
theorem threat_intel_override (h : Option HeuristicResult) (m : Option MLResult)
    (t : TIResult) (hrep : t.reputation = TIRep.flagged)
    (hhits : highHitCount ≤ t.hits) :
    (assess h m (some t)).classification = "dangerous" := by
  unfold assess
  have hfl : tiFlaggedHigh (some t) = true := by
    simp [tiFlaggedHigh, hrep, hhits]
  simp [hfl]

/-- C7 witness: the override applied against a contradicting ML signal with
label safe at full confidence and a heuristic sub-score of 0. -/
theorem threat_intel_override_witness :
    (assess (some { subScore := 0, criticalTerms := false })
        (some { label := MLLabel.safe, confidence := 1 })
        (some { reputation := TIRep.flagged, hits := 100 })).classification =
      "dangerous" :=
  threat_intel_override _ _ _ rfl (by decide)

end ClickSafe
